import Mathlib

set_option maxRecDepth 4000

/-!
Shallow embedding of the smart-city backend (FastAPI/SQLAlchemy, Python) used to
check the natural-language specification against the code.

Embedded components:
 - the chat completions endpoint (backend/app/api/chat.py, chat_completion),
 - the usage-recording step of the AI service (backend/app/services/ai_service.py,
   AIService._record_usage),
 - the set-default-provider endpoint (backend/app/api/ai.py, set_default_provider),
 - the weather condition mapping (backend/app/services/weather_service.py,
   WeatherService._map_to_cesium_condition),
 - the haversine distance and buffer analysis (backend/app/api/spatial_analysis.py),
 - the API-key encrypt/decrypt wrappers (backend/app/core/security.py).

Database tables are modelled as Lean lists of rows; `DECIMAL` columns as rationals;
timestamps as naturals; floating-point arithmetic of the haversine formula as real
arithmetic.  External effects (the LLM provider HTTP call, the weather-scene
helper) are injected as parameters of the endpoint function.
-/

/-- Python `str.lower()` restricted to the character set the code uses: ASCII
letters are lowercased, CJK characters are unchanged (as in Python). -/
def strLower (s : String) : String :=
  String.mk (s.data.map Char.toLower)

/-- Helper for substring search: does the needle occur at the head of the hay? -/
def subHere : List Char → List Char → Bool
  | [], _ => true
  | _ :: _, [] => false
  | a :: as, b :: bs => a == b && subHere as bs

/-- Helper for substring search: does the needle occur anywhere in the hay? -/
def subSome (n : List Char) : List Char → Bool
  | [] => subHere n []
  | b :: bs => subHere n (b :: bs) || subSome n bs

/-- Python `needle in hay` on strings (substring containment). -/
def strIn (needle hay : String) : Bool :=
  subSome needle.data hay.data

/-- One row of tb_ai_conversations (app/models: AIConversation), restricted to the
columns the chat endpoint reads and writes.  `created_at` is a natural-number
timestamp; rows are inserted with increasing timestamps. -/
structure AIConversation where
  user_id : String
  session_id : String
  role : String
  content : String
  created_at : Nat
deriving DecidableEq, BEq

/-- One chat message handed to the provider (app/services/ai/providers.py, Message). -/
structure Message where
  role : String
  content : String
deriving DecidableEq

/-- The relevant entries of the `tokens_used` dictionary of a provider response,
after the `.get(key, 0)` defaulting the callers apply. -/
structure TokensUsed where
  input_tokens : Nat
  output_tokens : Nat
  total_tokens : Nat
deriving DecidableEq

/-- One decoded tool call of a provider response: the function name and the
already-parsed `arguments` object (chat.py parses the JSON string; parse
failures yield the empty parameter list). -/
structure ToolCall where
  name : String
  params : List (String × String)
deriving DecidableEq

/-- One UI action of the endpoint response: `{type, parameters}`. -/
structure UIAction where
  type : String
  parameters : List (String × String)
deriving DecidableEq

/-- A provider chat-completion response (app/services/ai/providers.py,
ChatCompletionResponse), restricted to the fields chat.py reads. -/
structure ChatCompletionResponse where
  content : String
  model : String
  tokens_used : TokensUsed
  tool_calls : Option (List ToolCall)
deriving DecidableEq

/-- Outcome of the `ai_service.chat_completion` call made by the endpoint: a
response, a raised ValueError (carrying `str(e)`), or any other raised
exception (carrying `str(e)`).  The call is an external effect (database plus
HTTP), so the endpoint model takes the outcome as a parameter. -/
inductive ProviderOutcome where
  | ok (response : ChatCompletionResponse)
  | valueError (message : String)
  | exc (message : String)

/-- Result of `execute_weather_scene_action` (weather_scene_service.py): a dict
with an `error` entry, or a dict with an `actions` list.  The helper performs
network calls, so the endpoint model takes it as a parameter. -/
inductive SceneResult where
  | failed (error : String)
  | produced (actions : List UIAction)

/-- Result of the chat completions endpoint: either the returned payload
(together with the final conversation-table state) or a re-raised exception. -/
inductive ChatResult where
  | ok (db : List AIConversation) (session_id : String) (content : String)
       (actions : List UIAction) (tokens_used : TokensUsed)
  | raised (db : List AIConversation) (error : String)
deriving DecidableEq

/-- Insert a row into a list sorted by `created_at` (ascending), keeping it sorted. -/
def insert_by_created (r : AIConversation) : List AIConversation → List AIConversation
  | [] => [r]
  | x :: xs =>
      if x.created_at ≤ r.created_at then x :: insert_by_created r xs
      else r :: x :: xs

/-- Sort conversation rows by `created_at` ascending (the `ORDER BY created_at`
of the history query). -/
def sort_by_created (rows : List AIConversation) : List AIConversation :=
  rows.foldr insert_by_created []

/-- The history query of chat.py lines 50 to 59: rows of the (session, user)
pair, ordered by `created_at`, `LIMIT 20`.  Note that the limit is applied to
the ascending order, so it keeps the chronologically first 20 rows. -/
def get_history (db : List AIConversation) (user_id session_id : String) :
    List AIConversation :=
  (sort_by_created (db.filter
    (fun r => r.session_id == session_id && r.user_id == user_id))).take 20

/-- The fixed system prompt of chat.py line 67. -/
def system_prompt : String :=
  "你是智慧城市控制大脑，负责理解用户自然语言指令并控制系统动作。"

/-- Context construction of chat.py lines 61 to 74: drop the last element of the
queried history, prepend the system prompt when the remainder is non-empty, and
append the current user message. -/
def build_context (history : List AIConversation) (message_content : String) :
    List Message :=
  let prev_messages := history.dropLast
  (if prev_messages.isEmpty then ([] : List Message)
   else [⟨"system", system_prompt⟩])
    ++ prev_messages.map (fun m => (⟨m.role, m.content⟩ : Message))
    ++ [(⟨"user", message_content⟩ : Message)]

/-- The `city_keywords` dict of chat.py lines 100 to 105, in insertion order. -/
def city_keywords : List (String × String) :=
  [("上海", "上海"), ("北京", "北京"), ("广州", "广州"), ("深圳", "深圳"),
   ("香港", "香港"), ("hangzhou", "杭州"), ("shanghai", "上海"),
   ("beijing", "北京"), ("guangzhou", "广州"), ("shenzhen", "深圳"),
   ("hong kong", "香港")]

/-- Rule-based fallback matching of chat.py lines 96 to 113: the first keyword
whose key occurs in the lowercased message or whose value occurs in the raw
message yields a single camera_flyTo action (the loop breaks after the first
match). -/
def rule_match_actions (message_content : String) : List UIAction :=
  let message_lower := strLower message_content
  match city_keywords.find?
      (fun kv => strIn kv.fst message_lower || strIn kv.snd message_content) with
  | some kv => [⟨"camera_flyTo", [("city", kv.snd)]⟩]
  | none => []

/-- The canned response built in the fallback branch (chat.py lines 116 to 123):
fixed text, model "rule-based", `tokens_used = {"total_tokens": 0}`, no tool calls. -/
def fallback_response : ChatCompletionResponse :=
  ⟨"好的，正在为您执行相关操作。", "rule-based", ⟨0, 0, 0⟩, none⟩

/-- UIAction extraction of chat.py lines 144 to 187: `actions` starts as the empty
list and is filled from `response.tool_calls` only; `query_and_apply_weather`
is expanded through the weather-scene helper, every other tool call becomes one
action verbatim. -/
def extract_actions (response : ChatCompletionResponse)
    (sceneExec : List (String × String) → SceneResult) : List UIAction :=
  match response.tool_calls with
  | none => []
  | some tcs =>
      tcs.foldl (fun acc tc =>
        if tc.name == "query_and_apply_weather" then
          match sceneExec tc.params with
          | SceneResult.failed err => acc ++ [⟨"error", [("message", err)]⟩]
          | SceneResult.produced scene_actions => acc ++ scene_actions
        else acc ++ [⟨tc.name, tc.params⟩]) []

/-- Success path of the endpoint (chat.py lines 132 to 200): persist the
assistant reply, rebind `actions` to the empty list (line 145) and fill it from
the response tool calls, return the payload. -/
def finish_success (db : List AIConversation) (session_id : String)
    (user_message : AIConversation) (now : Nat)
    (response : ChatCompletionResponse)
    (sceneExec : List (String × String) → SceneResult) : ChatResult :=
  let assistant_message : AIConversation :=
    ⟨user_message.user_id, session_id, "assistant", response.content, now + 1⟩
  let db2 := db ++ [user_message, assistant_message]
  let actions := extract_actions response sceneExec
  ChatResult.ok db2 session_id response.content actions response.tokens_used

/-- Exception path of the endpoint (chat.py lines 202 to 213): persist an
assistant row carrying the error text for the (user, session), commit, re-raise. -/
def finish_error (db : List AIConversation) (user_id session_id : String)
    (user_message : AIConversation) (now : Nat) (e : String) : ChatResult :=
  let error_message : AIConversation :=
    ⟨user_id, session_id, "assistant", "抱歉，发生了错误：" ++ e, now + 1⟩
  ChatResult.raised (db ++ [user_message, error_message]) e

/-- The chat completions endpoint (chat.py lines 24 to 213).  `db` is the
committed state of tb_ai_conversations; `now` the request timestamp; `outcome`
the result of the provider call; `sceneExec` the weather-scene helper.

The inserted user message stays pending until the first commit: the session
factory (app/database.py) sets `autoflush=False`, so the history query does not
see it.  The user-config lookup only feeds model and temperature into the
provider call and is absorbed into `outcome`. -/
def chat_completion (db : List AIConversation)
    (user_id session_id message_content : String) (now : Nat)
    (outcome : ProviderOutcome)
    (sceneExec : List (String × String) → SceneResult) : ChatResult :=
  let user_message : AIConversation :=
    ⟨user_id, session_id, "user", message_content, now⟩
  let history := get_history db user_id session_id
  let _messages := build_context history message_content
  match outcome with
  | ProviderOutcome.ok response =>
      finish_success db session_id user_message now response sceneExec
  | ProviderOutcome.valueError e =>
      if strIn "未配置可用的AI Provider" e then
        -- chat.py lines 96 to 128 compute rule-matched actions here, but the
        -- binding is dead: line 145 rebinds `actions` to the empty list before
        -- the response is assembled, so the matched actions never reach the
        -- returned payload.
        let _rule_actions := rule_match_actions message_content
        finish_success db session_id user_message now fallback_response sceneExec
      else finish_error db user_id session_id user_message now e
  | ProviderOutcome.exc e =>
      finish_error db user_id session_id user_message now e

/-- Definition following the wording of the specification (section 4.3 step 2)
and of claim C2, for comparison with `build_context` over `get_history`: take
the last 20 messages of the (user, session) conversation in chronological
order — the conversation including the just-inserted current user message —
remove that just-inserted message from the history, prepend the fixed system
prompt exactly when the remaining history is non-empty, and append the current
user message. -/
def spec_context (db_after_insert : List AIConversation)
    (user_id session_id : String) (user_message : AIConversation)
    (message_content : String) : List Message :=
  let chron := sort_by_created (db_after_insert.filter
    (fun r => r.session_id == session_id && r.user_id == user_id))
  let last20 := (chron.reverse.take 20).reverse
  let prev := last20.filter (fun r => !(r == user_message))
  (if prev.isEmpty then ([] : List Message)
   else [⟨"system", system_prompt⟩])
    ++ prev.map (fun m => (⟨m.role, m.content⟩ : Message))
    ++ [(⟨"user", message_content⟩ : Message)]

/-- One row of tb_ai_usage_stats (app/models: AIUsageStats).  The table's only
key is the generated uuid primary key `id` (modelled as a Nat); there is no
unique constraint on (user_id, provider_code, model_code, date).  `date` is a
day number. -/
structure AIUsageStats where
  id : Nat
  user_id : String
  provider_code : String
  model_code : String
  date : Nat
  request_count : Nat
  input_tokens : Nat
  output_tokens : Nat
  total_tokens : Nat
deriving DecidableEq

/-- The WHERE clause used by `_record_usage` to look the stats row up. -/
def usage_key_matches (r : AIUsageStats) (user_id provider_code model_code : String)
    (today : Nat) : Bool :=
  r.user_id == user_id && r.provider_code == provider_code &&
    r.model_code == model_code && r.date == today

/-- AIService._record_usage (ai_service.py lines 139 to 188).  `new_id` is the
uuid the insert generates; `today` is `date.today()`.  The `INSERT ... IGNORE`
always inserts a fresh row, because the only key of the table is the generated
primary key, so there is no duplicate to ignore.  The following
`scalar_one_or_none()` raises MultipleResultsFound when the lookup returns more
than one row; with exactly one row, that row's counters are incremented. -/
def record_usage (db : List AIUsageStats) (new_id : Nat)
    (user_id provider_code model_code : String) (today : Nat)
    (tokens_used : TokensUsed) : Except String (List AIUsageStats) :=
  let db1 := db ++ [⟨new_id, user_id, provider_code, model_code, today, 1,
    tokens_used.input_tokens, tokens_used.output_tokens, tokens_used.total_tokens⟩]
  let found := db1.filter
    (fun r => usage_key_matches r user_id provider_code model_code today)
  match found with
  | [stats] =>
      Except.ok (db1.map (fun r =>
        if r.id == stats.id then
          { r with
            request_count := stats.request_count + 1,
            input_tokens := stats.input_tokens + tokens_used.input_tokens,
            output_tokens := stats.output_tokens + tokens_used.output_tokens,
            total_tokens := stats.total_tokens + tokens_used.total_tokens }
        else r))
  | [] => Except.ok db1
  | _ => Except.error "MultipleResultsFound"

/-- One row of tb_ai_providers (app/models: AIProvider), restricted to the
columns the set-default endpoint touches.  `id` is the uuid primary key. -/
structure AIProvider where
  id : String
  user_id : String
  provider_code : String
  is_enabled : Bool
  is_default : Bool
  priority : Int
deriving DecidableEq

/-- Row effect of the first UPDATE of ai.py lines 101 to 105: clear
`is_default` on every row of the user. -/
def clear_default (user_id : String) (r : AIProvider) : AIProvider :=
  if r.user_id = user_id then { r with is_default := false } else r

/-- Row effect of the second UPDATE of ai.py lines 108 to 115: set `is_default`
on the row whose primary key is `provider_id` and whose user matches. -/
def set_if_target (user_id provider_id : String) (r : AIProvider) : AIProvider :=
  if r.id = provider_id ∧ r.user_id = user_id then { r with is_default := true }
  else r

/-- The set-default-provider endpoint (ai.py lines 93 to 122): the two UPDATEs
applied in sequence to every row of the table. -/
def set_default_provider (db : List AIProvider) (user_id provider_id : String) :
    List AIProvider :=
  let cleared := db.map (clear_default user_id)
  cleared.map (set_if_target user_id provider_id)

/-- The `condition_map` dict of weather_service.py lines 197 to 213, in
insertion order (keys are pairwise distinct). -/
def condition_map : List (String × String) :=
  [("Clear", "clear"), ("Clouds", "cloudy"), ("Rain", "rain"),
   ("Drizzle", "rain"), ("Thunderstorm", "rain"), ("Snow", "snow"),
   ("Mist", "fog"), ("Fog", "fog"), ("Haze", "fog"), ("Smoke", "fog"),
   ("Dust", "fog"), ("Sand", "fog"), ("Ash", "fog"), ("Squall", "rain"),
   ("Tornado", "rain")]

/-- WeatherService._map_to_cesium_condition (weather_service.py lines 195 to
214): `condition_map.get(condition, "clear")`. -/
def map_to_cesium_condition (condition : String) : String :=
  match condition_map.find? (fun kv => kv.fst == condition) with
  | some kv => kv.snd
  | none => "clear"

/-- Python `math.radians`: degrees to radians. -/
noncomputable def radians (x : ℝ) : ℝ :=
  x * Real.pi / 180

/-- calculate_distance (spatial_analysis.py lines 22 to 39): the haversine
formula with Earth radius 6371000 m, over ideal real arithmetic. -/
noncomputable def calculate_distance (lat1 lon1 lat2 lon2 : ℝ) : ℝ :=
  let dlat := radians lat2 - radians lat1
  let dlon := radians lon2 - radians lon1
  let a := Real.sin (dlat / 2) ^ 2 +
    Real.cos (radians lat1) * Real.cos (radians lat2) * Real.sin (dlon / 2) ^ 2
  let c := 2 * Real.arcsin (Real.sqrt a)
  6371000 * c

/-- One row of tb_buildings (app/models: Building), restricted to the columns
the buffer analysis reads.  Coordinates and height are DECIMAL columns,
modelled as rationals; `height`, `category` and `risk_level` are nullable. -/
structure Building where
  id : Nat
  name : String
  longitude : ℚ
  latitude : ℚ
  height : Option ℚ
  category : Option String
  risk_level : Option ℤ
deriving DecidableEq

/-- The min_height filter of buffer_analysis (spatial_analysis.py line 92):
`if min_height and b.height and float(b.height) < min_height: continue`.
Python truthiness makes the filter inert when min_height is absent or zero and
when the stored height is NULL or zero. -/
def height_excluded : Option ℚ → Option ℚ → Bool
  | some min_height, some h =>
      decide (min_height ≠ 0) && decide (h ≠ 0) && decide (h < min_height)
  | _, _ => false

/-- The category filter of buffer_analysis (spatial_analysis.py line 94):
`if category and b.category != category: continue`. -/
def category_excluded : Option String → Option String → Bool
  | some category, bc => decide (category ≠ "") && decide (bc ≠ some category)
  | none, _ => false

/-- The risk filter of buffer_analysis (spatial_analysis.py line 96):
`if risk_level is not None and b.risk_level < risk_level: continue`.  When the
stored risk level is NULL the comparison raises TypeError and the per-row
except skips the row, so the row is excluded as well. -/
def risk_excluded : Option ℤ → Option ℤ → Bool
  | none, _ => false
  | some risk_level, some br => decide (br < risk_level)
  | some _, none => true

/-- Membership of one building in the buffer result (spatial_analysis.py lines
79 to 112): within the radius by haversine distance from the center, and not
removed by any of the three optional filters. -/
def in_buffer (b : Building) (center_lat center_lon radius : ℝ)
    (min_height : Option ℚ) (category : Option String)
    (risk_level : Option ℤ) : Prop :=
  calculate_distance (b.latitude : ℝ) (b.longitude : ℝ) center_lat center_lon ≤ radius
    ∧ height_excluded min_height b.height = false
    ∧ category_excluded category b.category = false
    ∧ risk_excluded risk_level b.risk_level = false

/-- The set of buildings returned by buffer_analysis for a fixed building
table, center and filters (the endpoint then sorts this set by distance and
aggregates statistics over it). -/
def buffer_result (blds : List Building) (center_lat center_lon radius : ℝ)
    (min_height : Option ℚ) (category : Option String)
    (risk_level : Option ℤ) : Set Building :=
  { b | b ∈ blds ∧ in_buffer b center_lat center_lon radius min_height category risk_level }

/-- Abstract model of the third-party Fernet cipher (cryptography.fernet) the
security module instantiates at import time: an encryption function and a
decryption function that either recovers a plaintext or fails.  The library's
round-trip contract (decrypt inverts encrypt) is taken as a hypothesis of the
theorems that need it. -/
structure Cipher where
  enc : String → String
  dec : String → Option String

/-- encrypt_api_key (security.py lines 30 to 33). -/
def encrypt_api_key (c : Cipher) (api_key : String) : String :=
  c.enc api_key

/-- decrypt_api_key (security.py lines 36 to 43): return the decrypted value,
or the stored value itself when decryption fails (compatibility with
historically unencrypted keys). -/
def decrypt_api_key (c : Cipher) (encrypted_key : String) : String :=
  match c.dec encrypted_key with
  | some d => d
  | none => encrypted_key

/-- A concrete cipher used to witness the round-trip theorem: encryption
prepends a marker character, decryption strips it and fails on strings that do
not start with it. -/
def toy_cipher : Cipher where
  enc s := String.mk ('!' :: s.data)
  dec v :=
    match v.data with
    | [] => none
    | c :: rest => if c = '!' then some (String.mk rest) else none

/-- A conversation row of the fixed (user, session) pair used in concrete
inputs. -/
def conv_row (content : String) (t : Nat) : AIConversation :=
  ⟨"u", "s", "user", content, t⟩

/-- Twenty-one prior conversation rows of one session, with contents "0" to
"20" and strictly increasing timestamps. -/
def prior_rows_21 : List AIConversation :=
  (List.range 21).map (fun i => conv_row (toString i) i)

/-- Three provider rows of two users used in concrete inputs: user u1 has p1
(default) and p2, user u2 has p3 (default). -/
def provider_rows_example : List AIProvider :=
  [⟨"p1", "u1", "zhipu", true, true, 0⟩,
   ⟨"p2", "u1", "openai", true, false, 0⟩,
   ⟨"p3", "u2", "zhipu", true, true, 0⟩]

/-- A building at the origin used in concrete inputs. -/
def building_origin : Building :=
  ⟨1, "b1", 0, 0, some 10, some "residential", some 0⟩

/-- A building at the origin with NULL height used in concrete inputs. -/
def building_null_height : Building :=
  ⟨2, "b2", 0, 0, none, none, some 3⟩

theorem calc_dist_self (lat lon : ℝ) : calculate_distance lat lon lat lon = 0 := by
  simp [calculate_distance]

theorem calc_dist_symm (lat1 lon1 lat2 lon2 : ℝ) :
    calculate_distance lat1 lon1 lat2 lon2 = calculate_distance lat2 lon2 lat1 lon1 := by
  have h : ∀ x y : ℝ, Real.sin ((x - y) / 2) ^ 2 = Real.sin ((y - x) / 2) ^ 2 := by
    intro x y
    rw [show (x - y) / 2 = -((y - x) / 2) by ring, Real.sin_neg, neg_sq]
  simp only [calculate_distance]
  rw [h (radians lat2) (radians lat1), h (radians lon2) (radians lon1),
    mul_comm (Real.cos (radians lat1)) (Real.cos (radians lat2))]

/-- Claim C6: the haversine distance of spatial_analysis.py is zero from any
point to itself, and symmetric in its two points. -/
theorem calculate_distance_self_and_symm :
    (∀ lat lon : ℝ, calculate_distance lat lon lat lon = 0)
    ∧ (∀ lat1 lon1 lat2 lon2 : ℝ,
        calculate_distance lat1 lon1 lat2 lon2 = calculate_distance lat2 lon2 lat1 lon1) :=
  ⟨calc_dist_self, calc_dist_symm⟩

/-- Claim C7: for a fixed building table, center and optional filters, the set
of buildings returned by the buffer analysis is monotonically non-decreasing in
the radius. -/
theorem buffer_result_monotone (blds : List Building) (clat clon r1 r2 : ℝ)
    (mh : Option ℚ) (cat : Option String) (rl : Option ℤ) (h : r1 ≤ r2) :
    buffer_result blds clat clon r1 mh cat rl ⊆ buffer_result blds clat clon r2 mh cat rl := by
  intro b hb
  obtain ⟨hmem, hd, hrest⟩ := hb
  exact ⟨hmem, le_trans hd h, hrest⟩

/-- Witness for C7 at a concrete input: radii 1 and 2 over a one-building table. -/
theorem buffer_result_monotone_witness :
    (1 : ℝ) ≤ 2 ∧
      buffer_result [building_origin] 0 0 1 none none none ⊆
        buffer_result [building_origin] 0 0 2 none none none :=
  ⟨by norm_num, buffer_result_monotone [building_origin] 0 0 1 2 none none none (by norm_num)⟩

/-- Claim C10: the min_height filter of the buffer analysis keeps buildings
whose stored height is NULL (for any positive min_height), and filters nothing
when min_height is 0, because of Python truthiness in
`if min_height and b.height and float(b.height) < min_height`. -/
theorem buffer_min_height_keeps_null (blds : List Building) (clat clon radius : ℝ)
    (cat : Option String) (rl : Option ℤ) (b : Building) (hb : b ∈ blds)
    (hd : calculate_distance (b.latitude : ℝ) (b.longitude : ℝ) clat clon ≤ radius)
    (hcat : category_excluded cat b.category = false)
    (hrl : risk_excluded rl b.risk_level = false) :
    (∀ mh : ℚ, 0 < mh → b.height = none →
        b ∈ buffer_result blds clat clon radius (some mh) cat rl)
    ∧ b ∈ buffer_result blds clat clon radius (some 0) cat rl := by
  constructor
  · intro mh _ hh
    refine ⟨hb, hd, ?_, hcat, hrl⟩
    rw [hh]
    rfl
  · refine ⟨hb, hd, ?_, hcat, hrl⟩
    cases hh : b.height with
    | none => rfl
    | some v => simp [height_excluded]

/-- Witness for C10 at a concrete input: a NULL-height building at the center,
radius 1, min_height 5. -/
theorem buffer_min_height_keeps_null_witness :
    (0 : ℚ) < 5 ∧
      building_null_height ∈
        buffer_result [building_null_height] 0 0 1 (some 5) none none := by
  have hz : ((0 : ℚ) : ℝ) = 0 := by norm_num
  have hd : calculate_distance ((building_null_height.latitude : ℚ) : ℝ)
      ((building_null_height.longitude : ℚ) : ℝ) 0 0 ≤ 1 := by
    show calculate_distance ((0 : ℚ) : ℝ) ((0 : ℚ) : ℝ) 0 0 ≤ 1
    rw [hz, calc_dist_self]
    norm_num
  exact ⟨by norm_num,
    (buffer_min_height_keeps_null [building_null_height] 0 0 1 none none
      building_null_height (by simp) hd rfl rfl).1 5 (by norm_num) rfl⟩

/-- Claim C8: under the cipher round-trip contract of the Fernet library,
decrypt_api_key inverts encrypt_api_key, and a stored value on which
decryption fails is returned unchanged (the legacy pass-through of
security.py lines 36 to 43). -/
theorem api_key_roundtrip (c : Cipher) (hc : ∀ s, c.dec (c.enc s) = some s)
    (k v : String) :
    decrypt_api_key c (encrypt_api_key c k) = k
    ∧ (c.dec v = none → decrypt_api_key c v = v) := by
  constructor
  · simp [decrypt_api_key, encrypt_api_key, hc k]
  · intro hv
    simp [decrypt_api_key, hv]

/-- Witness for C8 at a concrete input: the marker cipher, a key, and a legacy
unencrypted value on which decryption fails. -/
theorem api_key_roundtrip_witness :
    decrypt_api_key toy_cipher (encrypt_api_key toy_cipher "sk-test-123") = "sk-test-123"
    ∧ decrypt_api_key toy_cipher "legacy-plain-key" = "legacy-plain-key" := by
  have hc : ∀ s, toy_cipher.dec (toy_cipher.enc s) = some s := by
    intro s
    cases s
    rfl
  have h := api_key_roundtrip toy_cipher hc "sk-test-123" "legacy-plain-key"
  exact ⟨h.1, h.2 (by decide)⟩

/-- Claim C5: the weather condition mapping is total with values in the fixed
five-element set, maps every vendor-enumerated condition to its fixed target,
and maps every other string to "clear". -/
theorem map_condition_total_and_fixed (s : String) :
    (map_to_cesium_condition s = "clear" ∨ map_to_cesium_condition s = "cloudy"
      ∨ map_to_cesium_condition s = "rain" ∨ map_to_cesium_condition s = "snow"
      ∨ map_to_cesium_condition s = "fog")
    ∧ (∀ kv ∈ condition_map, map_to_cesium_condition kv.fst = kv.snd)
    ∧ (s ∉ condition_map.map Prod.fst → map_to_cesium_condition s = "clear") := by
  refine ⟨?_, by decide, ?_⟩
  · cases h : condition_map.find? (fun kv => kv.fst == s) with
    | none => simp [map_to_cesium_condition, h]
    | some kv =>
        have hm := List.mem_of_find?_eq_some h
        have hall : ∀ p ∈ condition_map,
            p.snd = "clear" ∨ p.snd = "cloudy" ∨ p.snd = "rain" ∨ p.snd = "snow"
              ∨ p.snd = "fog" := by decide
        simpa [map_to_cesium_condition, h] using hall kv hm
  · intro hs
    cases h : condition_map.find? (fun kv => kv.fst == s) with
    | none => simp [map_to_cesium_condition, h]
    | some kv =>
        exfalso
        have hm := List.mem_of_find?_eq_some h
        have hp := List.find?_some h
        rw [beq_iff_eq] at hp
        exact hs (hp ▸ List.mem_map_of_mem Prod.fst hm)

/-- Witness for C5 at a concrete input: "Sunny" is not a key of the map and
maps to "clear". -/
theorem map_condition_total_and_fixed_witness :
    ("Sunny" ∉ condition_map.map Prod.fst)
    ∧ map_to_cesium_condition "Sunny" = "clear" :=
  ⟨by decide, (map_condition_total_and_fixed "Sunny").2.2 (by decide)⟩

/-- Claim C1 (evidence for the code bug): with no configured provider and the
message "去上海", which contains the known city 上海, the rule fallback of
chat.py lines 96 to 113 computes exactly one camera_flyTo action carrying that
city, but the endpoint's returned action list is empty, because chat.py line
145 rebinds `actions` to the empty list before the payload is assembled and
the fallback response carries no tool calls. -/
theorem chat_fallback_actions_discarded :
    rule_match_actions "去上海" = [⟨"camera_flyTo", [("city", "上海")]⟩]
    ∧ chat_completion [] "u" "s" "去上海" 0
        (ProviderOutcome.valueError "未配置可用的AI Provider，请先在设置中添加")
        (fun _ => SceneResult.failed "") =
      ChatResult.ok
        [⟨"u", "s", "user", "去上海", 0⟩,
         ⟨"u", "s", "assistant", "好的，正在为您执行相关操作。", 1⟩]
        "s" "好的，正在为您执行相关操作。" [] ⟨0, 0, 0⟩ :=
  ⟨by decide, by decide⟩

/-- Claim C2 (evidence for the code bug): the context the endpoint builds is
not the last 20 messages with the just-inserted message removed.  With one
prior message "m0" and current message "m1", the code builds only the current
message (the just-inserted row is invisible to the history query because the
session has autoflush disabled, so `history[:-1]` drops the latest prior
message), while the claimed construction yields system prompt, "m0", "m1".
With 21 prior messages, the claimed context contains the latest prior message
"20" but the code's context does not, because the query keeps the
chronologically first 20 rows rather than the last 20. -/
theorem chat_context_wrong_history :
    build_context (get_history [conv_row "m0" 0] "u" "s") "m1" = [⟨"user", "m1"⟩]
    ∧ spec_context [conv_row "m0" 0, conv_row "m1" 1] "u" "s" (conv_row "m1" 1) "m1" =
        [⟨"system", system_prompt⟩, ⟨"user", "m0"⟩, ⟨"user", "m1"⟩]
    ∧ (⟨"user", "20"⟩ : Message) ∉ build_context (get_history prior_rows_21 "u" "s") "new"
    ∧ (⟨"user", "20"⟩ : Message) ∈
        spec_context (prior_rows_21 ++ [conv_row "new" 21]) "u" "s"
          (conv_row "new" 21) "new" :=
  ⟨by decide, by decide, by decide, by decide⟩

/-- Claim C3 (evidence for the code bug): starting from an empty stats table, a
single usage recording with token amounts (10, 5, 15) leaves the row with
request_count 2 and token counters (20, 10, 30) — the INSERT creates the row
with count 1 and the unconditional increment then doubles it — and a second
recording under the same (user, provider, model, day) key raises
MultipleResultsFound, because the table has no unique key on that tuple, so
the second INSERT adds a second row. -/
theorem record_usage_double_counts :
    record_usage [] 0 "u" "zhipu" "glm-4-flash" 7 ⟨10, 5, 15⟩ =
      Except.ok [⟨0, "u", "zhipu", "glm-4-flash", 7, 2, 20, 10, 30⟩]
    ∧ record_usage [⟨0, "u", "zhipu", "glm-4-flash", 7, 2, 20, 10, 30⟩] 1 "u"
        "zhipu" "glm-4-flash" 7 ⟨10, 5, 15⟩ = Except.error "MultipleResultsFound" :=
  ⟨rfl, rfl⟩

/-- Claim C9: when the provider call raises any exception other than the
handled no-provider ValueError, the endpoint persists an assistant-role row
carrying the error text for the (user, session) and re-raises the exception. -/
theorem chat_error_persists_and_reraises (db : List AIConversation)
    (user_id session_id message_content : String) (now : Nat)
    (sceneExec : List (String × String) → SceneResult) (m : String)
    (outcome : ProviderOutcome)
    (h : outcome = ProviderOutcome.exc m
      ∨ (outcome = ProviderOutcome.valueError m
          ∧ strIn "未配置可用的AI Provider" m = false)) :
    chat_completion db user_id session_id message_content now outcome sceneExec =
      ChatResult.raised
        (db ++ [⟨user_id, session_id, "user", message_content, now⟩,
                ⟨user_id, session_id, "assistant", "抱歉，发生了错误：" ++ m, now + 1⟩])
        m := by
  rcases h with h | ⟨h, hm⟩
  · subst h
    rfl
  · subst h
    simp [chat_completion, finish_error, hm]

/-- Witness for C9 at a concrete input: an empty table and a provider call
raising "boom". -/
theorem chat_error_persists_and_reraises_witness :
    chat_completion [] "u" "s" "hi" 0 (ProviderOutcome.exc "boom")
      (fun _ => SceneResult.failed "") =
      ChatResult.raised
        [⟨"u", "s", "user", "hi", 0⟩,
         ⟨"u", "s", "assistant", "抱歉，发生了错误：" ++ "boom", 1⟩] "boom" := by
  have h := chat_error_persists_and_reraises [] "u" "s" "hi" 0
    (fun _ => SceneResult.failed "") "boom" (ProviderOutcome.exc "boom") (Or.inl rfl)
  simpa using h

theorem set_default_provider_eq_map (db : List AIProvider) (uid pid : String) :
    set_default_provider db uid pid =
      db.map (fun r => set_if_target uid pid (clear_default uid r)) := by
  unfold set_default_provider
  rw [List.map_map]
  rfl

theorem set_if_clear_id (uid pid : String) (r : AIProvider) :
    (set_if_target uid pid (clear_default uid r)).id = r.id := by
  unfold clear_default set_if_target
  by_cases hu : r.user_id = uid <;> by_cases hid : r.id = pid <;> simp [hu, hid]

theorem set_if_clear_user (uid pid : String) (r : AIProvider) :
    (set_if_target uid pid (clear_default uid r)).user_id = r.user_id := by
  unfold clear_default set_if_target
  by_cases hu : r.user_id = uid <;> by_cases hid : r.id = pid <;> simp [hu, hid]

theorem set_if_clear_other_user (uid pid : String) (r : AIProvider)
    (hu : r.user_id ≠ uid) : set_if_target uid pid (clear_default uid r) = r := by
  unfold clear_default set_if_target
  simp [hu]

theorem set_if_clear_default_true (uid pid : String) (r : AIProvider)
    (hd : (set_if_target uid pid (clear_default uid r)).is_default = true)
    (hu : (set_if_target uid pid (clear_default uid r)).user_id = uid) :
    (set_if_target uid pid (clear_default uid r)).id = pid := by
  unfold clear_default set_if_target at *
  by_cases hru : r.user_id = uid
  · by_cases hid : r.id = pid
    · simp [hru, hid]
    · simp [hru, hid] at hd
  · simp [hru] at hu

theorem set_default_provider_ids (db : List AIProvider) (uid pid : String) :
    (set_default_provider db uid pid).map (fun r => r.id) =
      db.map (fun r => r.id) := by
  rw [set_default_provider_eq_map, List.map_map]
  apply List.map_congr_left
  intro r _
  exact set_if_clear_id uid pid r

theorem nodup_all_eq_length_le_one (l : List String) (v : String)
    (hn : l.Nodup) (h : ∀ x ∈ l, x = v) : l.length ≤ 1 := by
  match l, hn with
  | [], _ => simp
  | [x], _ => simp
  | x :: y :: t, hn =>
      exfalso
      have hx := h x (by simp)
      have hy := h y (by simp)
      have hnx : x ∉ y :: t := (List.nodup_cons.mp hn).1
      exact hnx (by simp [hx, hy])

theorem set_default_only_target_default (db : List AIProvider) (uid pid : String) :
    ∀ s ∈ set_default_provider db uid pid,
      s.user_id = uid → s.is_default = true → s.id = pid := by
  intro s hs huser hdef
  rw [set_default_provider_eq_map] at hs
  obtain ⟨r, _, rfl⟩ := List.mem_map.mp hs
  exact set_if_clear_default_true uid pid r hdef huser

theorem filter_map_eq_of_preserved (f : AIProvider → AIProvider)
    (p : AIProvider → Bool) (hp : ∀ r, p (f r) = p r)
    (hf : ∀ r, p r = true → f r = r) :
    ∀ l : List AIProvider, (l.map f).filter p = l.filter p := by
  intro l
  induction l with
  | nil => rfl
  | cons a t ih =>
      simp only [List.map_cons, List.filter_cons, hp a]
      cases h : p a with
      | true => rw [hf a h, ih]
      | false => exact ih

/-- Counterexample for claim C4 as stated: when the targeted provider is
already the user's default, the operation leaves it default, so the
previously-default row does not end with is_default false. -/
theorem set_default_provider_counterexample :
    (⟨"p1", "u1", "zhipu", true, true, 0⟩ : AIProvider).is_default = true
    ∧ set_default_provider [⟨"p1", "u1", "zhipu", true, true, 0⟩] "u1" "p1" =
        [⟨"p1", "u1", "zhipu", true, true, 0⟩] :=
  ⟨rfl, by decide⟩

/-- Claim C4 as amended: after set_default_provider, under the primary-key
uniqueness of the provider table, at most one row of the user is default;
every default row of the user is the targeted row; every previously-default
row of the user other than the targeted row ends with is_default false; and
rows of other users are unchanged. -/
theorem set_default_provider_invariant (db : List AIProvider) (uid pid : String)
    (hpk : (db.map (fun r => r.id)).Nodup) :
    ((set_default_provider db uid pid).filter
        (fun r => r.user_id == uid && r.is_default)).length ≤ 1
    ∧ (∀ s ∈ set_default_provider db uid pid,
        s.user_id = uid → s.is_default = true → s.id = pid)
    ∧ (∀ r ∈ db, r.user_id = uid → r.is_default = true → r.id ≠ pid →
        ∀ s ∈ set_default_provider db uid pid, s.id = r.id → s.is_default = false)
    ∧ ((set_default_provider db uid pid).filter (fun r => !(r.user_id == uid)) =
        db.filter (fun r => !(r.user_id == uid))) := by
  refine ⟨?_, set_default_only_target_default db uid pid, ?_, ?_⟩
  · have hall : ∀ x ∈ ((set_default_provider db uid pid).filter
        (fun r => r.user_id == uid && r.is_default)).map (fun r => r.id), x = pid := by
      intro x hx
      obtain ⟨s, hs, rfl⟩ := List.mem_map.mp hx
      have hm := List.mem_filter.mp hs
      have hp := hm.2
      rw [Bool.and_eq_true, beq_iff_eq] at hp
      exact set_default_only_target_default db uid pid s hm.1 hp.1 hp.2
    have hsub : ((set_default_provider db uid pid).filter
        (fun r => r.user_id == uid && r.is_default)).Sublist
        (set_default_provider db uid pid) := List.filter_sublist _
    have hid_nodup : ((set_default_provider db uid pid).map (fun r => r.id)).Nodup := by
      rw [set_default_provider_ids]
      exact hpk
    have hnodup := hid_nodup.sublist (hsub.map (fun r => r.id))
    have hlen := nodup_all_eq_length_le_one _ pid hnodup hall
    rwa [List.length_map] at hlen
  · intro r hr hu _ hid s hs hsid
    rw [set_default_provider_eq_map] at hs
    obtain ⟨t, ht, rfl⟩ := List.mem_map.mp hs
    rw [set_if_clear_id] at hsid
    have hteq : t = r := List.inj_on_of_nodup_map hpk ht hr hsid
    subst hteq
    unfold clear_default set_if_target
    simp [hu, hid]
  · rw [set_default_provider_eq_map]
    apply filter_map_eq_of_preserved
    · intro r
      simp [set_if_clear_user]
    · intro r hpr
      apply set_if_clear_other_user
      simpa using hpr

/-- Witness for the amended C4 at a concrete input: user u1 with previous
default p1 sets p2 as default; u2's rows are untouched. -/
theorem set_default_provider_invariant_witness :
    ((set_default_provider provider_rows_example "u1" "p2").filter
        (fun r => r.user_id == "u1" && r.is_default)).length ≤ 1
    ∧ (∀ s ∈ set_default_provider provider_rows_example "u1" "p2",
        s.user_id = "u1" → s.is_default = true → s.id = "p2")
    ∧ (∀ r ∈ provider_rows_example, r.user_id = "u1" → r.is_default = true →
        r.id ≠ "p2" → ∀ s ∈ set_default_provider provider_rows_example "u1" "p2",
          s.id = r.id → s.is_default = false)
    ∧ ((set_default_provider provider_rows_example "u1" "p2").filter
        (fun r => !(r.user_id == "u1")) =
      provider_rows_example.filter (fun r => !(r.user_id == "u1"))) :=
  set_default_provider_invariant provider_rows_example "u1" "p2" (by decide)
